/-
Verification of the ZAP sidecar dispatch-and-translation layer.

Shallow embedding of the four backend adapters (relational `sql`,
key-value `kv`, columnar `datastore` in its HTTP and native-TCP
variants, and `documentdb`), their dispatch (`handle`) functions,
the shared response encoder (`respond` / `respondRaw`), and the
bounded-retry connection bootstrap loops.

External collaborators (the JSON codec, the backend drivers, the
zero-copy envelope codec) are modelled as explicit function-typed
parameters: a decoder bundle per adapter (standing for
`encoding/json` unmarshalling of each request shape) and a backend
bundle per adapter (standing for the driver client).  The adapter
logic itself — routing, fallbacks, error mapping, column inference,
batch construction — is translated directly from the Go source.
-/
import Mathlib

namespace Zap

/-- Generic JSON-like value (models Go `interface{}` as carried through
`encoding/json`). -/
inductive JValue where
  | null
  | bool (b : Bool)
  | num (n : Int)
  | str (s : String)
  | arr (xs : List JValue)
  | obj (fields : List (String × JValue))

/-- A decoded JSON object / Go `map[string]interface{}` row, as an
association list (Go map iteration order is the list order). -/
abbrev Row := List (String × JValue)

/-- Body of a response envelope: either a JSON-serializable value handed
to `json.Marshal` (the `respond` path) or raw pre-serialized bytes
(the `respondRaw` path). -/
inductive RespBody where
  | json (v : JValue)
  | raw (bytes : String)

/-- Response envelope: the three fields every adapter's response encoder
sets (`respStatus`, `respBody`, `respHeaders`). -/
structure Response where
  status : Nat
  body : RespBody
  headers : String

/-- The fixed JSON content-type header map written by `respond`. -/
def ctJSON : String := "\x7b\"Content-Type\":[\"application/json\"]\x7d"

/-- The NDJSON content-type header map written by `respondRaw`. -/
def ctNDJSON : String := "\x7b\"Content-Type\":[\"application/x-ndjson\"]\x7d"

/-- Shared response encoder (`respond` in every adapter): status is cast
to uint32 by the codec (`ob.SetUint32(respStatus, uint32(status))`),
the data is JSON-marshalled into the body, headers are fixed. -/
def respond (status : Nat) (data : JValue) : Response :=
  { status := status % 4294967296, body := RespBody.json data, headers := ctJSON }

/-- Raw-bytes response encoder (`respondRaw`, HTTP datastore variant). -/
def respondRaw (status : Nat) (raw : String) : Response :=
  { status := status % 4294967296, body := RespBody.raw raw, headers := ctNDJSON }

/- ================================================================
   Key-value adapter (internal/kv/proxy.go)
   ================================================================ -/

/-- Result of the backend `Get`: the driver distinguishes a present
value, the `kv.Nil` missing-key reply, and a genuine error. -/
inductive KVGetResult where
  | found (v : String)
  | nilReply
  | fail (e : String)

/-- Decoder bundle for the kv adapter: `json.Unmarshal` of each request
shape; `Except.error e` is a decode failure with message `e`. -/
structure KVDecode where
  cmdReq : String → Except String (String × List String)
  keyReq : String → Except String String
  setReq : String → Except String (String × String)
  mgetReq : String → Except String (List String)

/-- Backend bundle for the kv adapter (the Redis-protocol client). -/
structure KVBackend where
  get : String → KVGetResult
  set : String → String → Option String
  mget : List String → Except String (List (Option String))
  doCmd : List String → Except String JValue
  ping : Option String

/-- Go `strings.Fields`: split on whitespace runs, no empty tokens. -/
def goFields (s : String) : List String :=
  (s.split fun c => c == ' ' || c == '\t' || c == '\n' || c == '\r').filter
    fun t => t ≠ ""

/-- Core of `Proxy.cmd` after the request is decoded: assemble the
argument vector `[cmd, args...]` and run `client.Do`. -/
def kvCmdRun (be : KVBackend) (cmd : String) (args : List String) : Response :=
  match be.doCmd (cmd :: args) with
  | Except.error e => respond 500 (JValue.obj [("error", JValue.str e)])
  | Except.ok v => respond 200 (JValue.obj [("result", v)])

/-- `Proxy.cmd`: JSON decode into `{cmd, args}`; on failure tokenize the
raw body as a command line (empty command line is a 400). -/
def kvCmd (dec : KVDecode) (be : KVBackend) (body : String) : Response :=
  match dec.cmdReq body with
  | Except.ok r => kvCmdRun be r.1 r.2
  | Except.error _ =>
    match goFields body with
    | [] => respond 400 (JValue.obj [("error", JValue.str "empty command")])
    | c :: as => kvCmdRun be c as

/-- The key `Proxy.get` looks up: decoded `{key}` field, or on decode
failure the entire raw body. -/
def kvKeyOf (dec : KVDecode) (body : String) : String :=
  match dec.keyReq body with
  | Except.ok k => k
  | Except.error _ => body

/-- Core of `Proxy.get` after key extraction: `kv.Nil` maps to a
200-status null value, other errors to 500. -/
def kvGetRun (be : KVBackend) (key : String) : Response :=
  match be.get key with
  | KVGetResult.nilReply => respond 200 (JValue.obj [("value", JValue.null)])
  | KVGetResult.fail e => respond 500 (JValue.obj [("error", JValue.str e)])
  | KVGetResult.found v => respond 200 (JValue.obj [("value", JValue.str v)])

/-- `Proxy.get`. -/
def kvGet (dec : KVDecode) (be : KVBackend) (body : String) : Response :=
  kvGetRun be (kvKeyOf dec body)

/-- `Proxy.set`: malformed body is a 400; backend error a 500. -/
def kvSet (dec : KVDecode) (be : KVBackend) (body : String) : Response :=
  match dec.setReq body with
  | Except.error e => respond 400 (JValue.obj [("error", JValue.str e)])
  | Except.ok kv =>
    match be.set kv.1 kv.2 with
    | some e => respond 500 (JValue.obj [("error", JValue.str e)])
    | none => respond 200 (JValue.obj [("status", JValue.str "OK")])

/-- `Proxy.mget`. -/
def kvMget (dec : KVDecode) (be : KVBackend) (body : String) : Response :=
  match dec.mgetReq body with
  | Except.error e => respond 400 (JValue.obj [("error", JValue.str e)])
  | Except.ok keys =>
    match be.mget keys with
    | Except.error e => respond 500 (JValue.obj [("error", JValue.str e)])
    | Except.ok vals =>
      respond 200 (JValue.obj
        [("values", JValue.arr (vals.map fun v =>
          match v with
          | none => JValue.null
          | some s => JValue.str s))])

/-- `Proxy.health` (kv). -/
def kvHealth (be : KVBackend) : Response :=
  match be.ping with
  | some e => respond 503 (JValue.obj [("error", JValue.str e)])
  | none =>
    respond 200 (JValue.obj
      [("status", JValue.str "ok"), ("service", JValue.str "hanzo-kv")])

/-- `Proxy.handle` (kv): exact route match, with the unknown-path
fallback to the generic command on a non-empty body. -/
def kvHandle (dec : KVDecode) (be : KVBackend) (path body : String) : Response :=
  if path = "/health" then kvHealth be
  else if path = "/get" then kvGet dec be body
  else if path = "/set" then kvSet dec be body
  else if path = "/mget" then kvMget dec be body
  else if path = "/cmd" then kvCmd dec be body
  else if 0 < body.length then kvCmd dec be body
  else respond 404 (JValue.obj [("error", JValue.str ("unknown: " ++ path))])

/- ================================================================
   Relational adapter (internal/sql/proxy.go)
   ================================================================ -/

/-- Decoded `{sql, args}` request body (`sqlReq` in the source). -/
structure SqlReq where
  sql : String
  args : List JValue

/-- Decoder bundle for the sql adapter.  `json.Unmarshal` into a
`sqlReq` struct returns an optional error together with the struct's
resulting state: on success the fully decoded request, on failure
whatever fields the partial decode populated before (or despite) the
error — Go's `Unmarshal` keeps decoding other fields after an
`UnmarshalTypeError`, so e.g. a body whose `sql` field is a number
but whose `args` field is a valid list yields an error with a
populated `args`. -/
structure SQLDecode where
  sqlReq : String → Option String × SqlReq

/-- Result of `pool.Query`: a driver error, or field descriptions plus
the per-row `rows.Values()` outcomes in iteration order. -/
inductive SQLQueryResult where
  | fail (e : String)
  | ok (descs : List String) (scans : List (Except String (List JValue)))

/-- Backend bundle for the sql adapter (the pgx pool). -/
structure SQLBackend where
  query : String → List JValue → SQLQueryResult
  exec : String → List JValue → Except String (Int × String)
  ping : Option String

/-- The request `Proxy.query` / `Proxy.exec` act on: JSON decode into
`{sql, args}`; on decode failure only `req.SQL` is overwritten with
the entire raw body (`req.SQL = string(body)`), so the argument list
keeps whatever the partial decode left in it. -/
def sqlReqOf (dec : SQLDecode) (body : String) : SqlReq :=
  match dec.sqlReq body with
  | (none, r) => r
  | (some _, r) => { r with sql := body }

/-- The row-collection loop of `Proxy.query`: each row is the field
descriptions zipped with that row's values; the first `rows.Values()`
error aborts the loop. -/
def sqlCollectRows (descs : List String) :
    List (Except String (List JValue)) → Except String (List Row)
  | [] => Except.ok []
  | Except.error e :: _ => Except.error e
  | Except.ok vals :: rest =>
    match sqlCollectRows descs rest with
    | Except.error e => Except.error e
    | Except.ok rs => Except.ok ((descs.zip vals) :: rs)

/-- Core of `Proxy.query` (sql) after body decoding. -/
def sqlQueryRun (be : SQLBackend) (req : SqlReq) : Response :=
  match be.query req.sql req.args with
  | SQLQueryResult.fail e => respond 500 (JValue.obj [("error", JValue.str e)])
  | SQLQueryResult.ok descs scans =>
    match sqlCollectRows descs scans with
    | Except.error e => respond 500 (JValue.obj [("error", JValue.str e)])
    | Except.ok rs =>
      respond 200 (JValue.obj
        [("rows", JValue.arr (rs.map JValue.obj)),
         ("count", JValue.num rs.length)])

/-- `Proxy.query` (sql). -/
def sqlQuery (dec : SQLDecode) (be : SQLBackend) (body : String) : Response :=
  sqlQueryRun be (sqlReqOf dec body)

/-- Core of `Proxy.exec` (sql) after body decoding. -/
def sqlExecRun (be : SQLBackend) (req : SqlReq) : Response :=
  match be.exec req.sql req.args with
  | Except.error e => respond 500 (JValue.obj [("error", JValue.str e)])
  | Except.ok tag =>
    respond 200 (JValue.obj
      [("rows_affected", JValue.num tag.1), ("command", JValue.str tag.2)])

/-- `Proxy.exec` (sql). -/
def sqlExec (dec : SQLDecode) (be : SQLBackend) (body : String) : Response :=
  sqlExecRun be (sqlReqOf dec body)

/-- `Proxy.health` (sql). -/
def sqlHealth (be : SQLBackend) : Response :=
  match be.ping with
  | some e => respond 503 (JValue.obj [("error", JValue.str e)])
  | none =>
    respond 200 (JValue.obj
      [("status", JValue.str "ok"), ("service", JValue.str "hanzo-sql")])

/-- `Proxy.handle` (sql): unknown path with non-empty body falls back to
the query operation. -/
def sqlHandle (dec : SQLDecode) (be : SQLBackend) (path body : String) : Response :=
  if path = "/query" then sqlQuery dec be body
  else if path = "/exec" then sqlExec dec be body
  else if path = "/health" then sqlHealth be
  else if 0 < body.length then sqlQuery dec be body
  else respond 404 (JValue.obj [("error", JValue.str ("unknown: " ++ path))])

/- ================================================================
   Columnar adapter, HTTP transport variant (package datastore,
   ClickHouse HTTP API)
   ================================================================ -/

/-- Decoded `dsQuery` body of the HTTP variant. -/
structure DsHttpQueryReq where
  sql : String
  database : String
  format : String

/-- Decoded `insertReq` body of the HTTP variant. -/
structure DsHttpInsertReq where
  table : String
  database : String
  rows : List Row

/-- Decoder bundle for the HTTP datastore variant; `marshal` stands for
`json.Marshal` of one row (used to build the NDJSON payload).  As in
`SQLDecode`, `queryReq` returns the optional `json.Unmarshal` error
together with the struct's resulting (possibly partially populated)
state, because the source keeps using the struct after a decode
failure. -/
structure DsHttpDecode where
  queryReq : String → Option String × DsHttpQueryReq
  insertReq : String → Except String DsHttpInsertReq
  marshal : Row → String

/-- Backend bundle for the HTTP variant: the two POST request shapes
(`database`, statement, payload) and the `/ping` probe.  An
`Except.ok` result carries the HTTP status code and response body. -/
structure DsHttpBackend where
  postQuery : String → String → Except String (Nat × String)
  postInsert : String → String → String → Except String (Nat × String)
  ping : Option String

/-- Database selected by the HTTP variant: request override or the
adapter default. -/
def dsHttpDb (defaultDb reqDb : String) : String :=
  if reqDb = "" then defaultDb else reqDb

/-- The NDJSON buffer built by the HTTP variant's insert loop: each row
marshalled and newline-terminated. -/
def dsHttpPayload (marshal : Row → String) (rows : List Row) : String :=
  rows.foldl (fun acc r => acc ++ marshal r ++ "\n") ""

/-- The bulk-load statement of the HTTP variant's insert. -/
def dsHttpInsertSQL (table : String) : String :=
  "INSERT INTO " ++ table ++ " FORMAT JSONEachRow"

/-- Core of `Proxy.query` (HTTP datastore variant) after body decoding:
default database and format, POST, then stream the backend's NDJSON
through `respondRaw` on success. -/
def dsHttpQueryRun (be : DsHttpBackend) (defaultDb : String) (req : DsHttpQueryReq) :
    Response :=
  let fmt := if req.format = "" then "JSONEachRow" else req.format
  match be.postQuery (dsHttpDb defaultDb req.database) (req.sql ++ " FORMAT " ++ fmt) with
  | Except.error e => respond 502 (JValue.obj [("error", JValue.str e)])
  | Except.ok res =>
    if res.1 ≠ 200 then respond res.1 (JValue.obj [("error", JValue.str res.2)])
    else respondRaw 200 res.2

/-- `Proxy.query` (HTTP datastore variant): JSON decode, and on decode
failure only `req.SQL` is overwritten with the raw body — any
partially decoded `Database`/`Format` values are kept and used. -/
def dsHttpQuery (dec : DsHttpDecode) (be : DsHttpBackend) (defaultDb body : String) :
    Response :=
  match dec.queryReq body with
  | (none, r) => dsHttpQueryRun be defaultDb r
  | (some _, r) => dsHttpQueryRun be defaultDb { r with sql := body }

/-- `Proxy.insert` (HTTP datastore variant): malformed body is a 400;
rows are serialized as NDJSON and streamed in one request; a 200
backend reply yields `{"status":"ok","inserted":len(rows)}`. -/
def dsHttpInsert (dec : DsHttpDecode) (be : DsHttpBackend) (defaultDb body : String) :
    Response :=
  match dec.insertReq body with
  | Except.error e => respond 400 (JValue.obj [("error", JValue.str e)])
  | Except.ok req =>
    match be.postInsert (dsHttpDb defaultDb req.database)
        (dsHttpInsertSQL req.table) (dsHttpPayload dec.marshal req.rows) with
    | Except.error e => respond 502 (JValue.obj [("error", JValue.str e)])
    | Except.ok res =>
      if res.1 ≠ 200 then respond res.1 (JValue.obj [("error", JValue.str res.2)])
      else
        respond 200 (JValue.obj
          [("status", JValue.str "ok"), ("inserted", JValue.num req.rows.length)])

/-- `Proxy.health` (HTTP datastore variant). -/
def dsHttpHealth (be : DsHttpBackend) : Response :=
  match be.ping with
  | some e => respond 503 (JValue.obj [("error", JValue.str e)])
  | none =>
    respond 200 (JValue.obj
      [("status", JValue.str "ok"), ("service", JValue.str "hanzo-datastore")])

/-- `Proxy.handle` (HTTP datastore variant). -/
def dsHttpHandle (dec : DsHttpDecode) (be : DsHttpBackend) (defaultDb path body : String) :
    Response :=
  if path = "/health" then dsHttpHealth be
  else if path = "/query" then dsHttpQuery dec be defaultDb body
  else if path = "/insert" then dsHttpInsert dec be defaultDb body
  else if 0 < body.length then dsHttpQuery dec be defaultDb body
  else respond 404 (JValue.obj [("error", JValue.str ("unknown: " ++ path))])

/- ================================================================
   Columnar adapter, native TCP transport variant (package datastore,
   clickhouse-go driver)
   ================================================================ -/

/-- Decoded `dsQuery` body of the native variant. -/
structure DsNativeQueryReq where
  sql : String
  database : String

/-- Decoded `dsExec` body of the native variant. -/
structure DsExecReq where
  sql : String
  args : List JValue

/-- Decoded `insertReq` body of the native variant: table, optional
database override, optional explicit column list, rows. -/
structure DsInsertReq where
  table : String
  database : String
  columns : List String
  rows : List Row

/-- Decoded `tablesReq` body of the native variant. -/
structure DsTablesReq where
  database : String

/-- Decoder bundle for the native datastore variant. -/
structure DsNativeDecode where
  queryReq : String → Except String DsNativeQueryReq
  execReq : String → Except String DsExecReq
  insertReq : String → Except String DsInsertReq
  tablesReq : String → Except String DsTablesReq

/-- Result of `conn.Query` in the native variant: a driver error, or
column names, the per-row `rows.Scan` outcomes, and the final
`rows.Err()` value. -/
inductive CHQueryResult where
  | fail (e : String)
  | ok (cols : List String) (scans : List (Except String (List JValue)))
      (finalErr : Option String)

/-- One row of `system.tables` introspection. -/
structure TableInfo where
  name : String
  engine : String
  totalRows : Option Int
  totalBytes : Option Int

/-- A prepared native batch: the per-row `Append` outcome (as a function
of the positional values) and the `Send` outcome. -/
structure CHBatch where
  append : List (Option JValue) → Option String
  send : Option String

/-- Backend bundle for the native datastore variant. -/
structure DsNativeBackend where
  query : String → CHQueryResult
  exec : String → List JValue → Option String
  prepareBatch : String → Except String CHBatch
  queryTables : String → Except String (List (Except String TableInfo))
  ping : Option String
  version : Option (Nat × Nat × Nat)

/-- The row-collection loop of the native `Proxy.query`: the first
`rows.Scan` error aborts with a 500. -/
def chCollectRows (cols : List String) :
    List (Except String (List JValue)) → Except String (List Row)
  | [] => Except.ok []
  | Except.error e :: _ => Except.error e
  | Except.ok vals :: rest =>
    match chCollectRows cols rest with
    | Except.error e => Except.error e
    | Except.ok rs => Except.ok ((cols.zip vals) :: rs)

/-- `Proxy.query` (native datastore variant): a driver error or a
post-loop `rows.Err()` is a 502, a scan error a 500. -/
def dsNativeQuery (dec : DsNativeDecode) (be : DsNativeBackend) (body : String) :
    Response :=
  let req :=
    match dec.queryReq body with
    | Except.ok r => r
    | Except.error _ => { sql := body, database := "" }
  match be.query req.sql with
  | CHQueryResult.fail e => respond 502 (JValue.obj [("error", JValue.str e)])
  | CHQueryResult.ok cols scans finalErr =>
    match chCollectRows cols scans with
    | Except.error e => respond 500 (JValue.obj [("error", JValue.str e)])
    | Except.ok rs =>
      match finalErr with
      | some e => respond 502 (JValue.obj [("error", JValue.str e)])
      | none =>
        respond 200 (JValue.obj
          [("rows", JValue.arr (rs.map JValue.obj)),
           ("count", JValue.num rs.length)])

/-- `Proxy.exec` (native datastore variant): malformed body is a 400,
a driver error a 502. -/
def dsExec (dec : DsNativeDecode) (be : DsNativeBackend) (body : String) : Response :=
  match dec.execReq body with
  | Except.error e => respond 400 (JValue.obj [("error", JValue.str e)])
  | Except.ok req =>
    match be.exec req.sql req.args with
    | some e => respond 502 (JValue.obj [("error", JValue.str e)])
    | none => respond 200 (JValue.obj [("status", JValue.str "ok")])

/-- Column inference of the native bulk insert: the explicit column
list, or if it is empty the keys of the first row in map iteration
order (`for k := range req.Rows[0]`). -/
def inferCols (explicit : List String) (rows : List Row) : List String :=
  if explicit.isEmpty then
    match rows with
    | [] => explicit
    | r :: _ => r.map Prod.fst
  else explicit

/-- Go map indexing `row[col]`: the first binding of the key, or the
zero value (`nil` interface, i.e. backend default) when absent. -/
def lookupRow (row : Row) (col : String) : Option JValue :=
  (row.find? fun p => p.1 == col).map Prod.snd

/-- The positional values appended for one row: each inferred column
name looked up in that row (`vals[i] = row[col]`). -/
def rowVals (cols : List String) (row : Row) : List (Option JValue) :=
  cols.map (lookupRow row)

/-- The batch-staging loop of the native insert: append each row's
positional values, stopping at the first `Append` error. -/
def insertLoop (append : List (Option JValue) → Option String) (cols : List String) :
    List Row → Option String
  | [] => none
  | row :: rest =>
    match append (rowVals cols row) with
    | some e => some e
    | none => insertLoop append cols rest

/-- Target table of the native insert, qualified with the request
database when it is set and differs from the adapter default. -/
def dsInsertTable (defaultDb : String) (req : DsInsertReq) : String :=
  if req.database ≠ "" ∧ req.database ≠ defaultDb then
    req.database ++ "." ++ req.table
  else req.table

/-- The INSERT statement handed to `PrepareBatch`. -/
def dsInsertSQL (defaultDb : String) (req : DsInsertReq) : String :=
  "INSERT INTO " ++ dsInsertTable defaultDb req ++ " (" ++
    String.intercalate ", " (inferCols req.columns req.rows) ++ ")"

/-- `Proxy.insert` (native datastore variant): malformed body and an
empty rows list are 400s; `PrepareBatch` and `Send` failures are
502s; the first `Append` failure aborts the batch with a 400 naming
the row-append failure, before `Send` is reached. -/
def dsInsert (dec : DsNativeDecode) (be : DsNativeBackend) (defaultDb body : String) :
    Response :=
  match dec.insertReq body with
  | Except.error e => respond 400 (JValue.obj [("error", JValue.str e)])
  | Except.ok req =>
    if req.rows.isEmpty then respond 400 (JValue.obj [("error", JValue.str "no rows")])
    else
      match be.prepareBatch (dsInsertSQL defaultDb req) with
      | Except.error e => respond 502 (JValue.obj [("error", JValue.str e)])
      | Except.ok batch =>
        match insertLoop batch.append (inferCols req.columns req.rows) req.rows with
        | some e =>
          respond 400 (JValue.obj [("error", JValue.str ("row append: " ++ e))])
        | none =>
          match batch.send with
          | some e => respond 502 (JValue.obj [("error", JValue.str e)])
          | none =>
            respond 200 (JValue.obj
              [("status", JValue.str "ok"),
               ("inserted", JValue.num req.rows.length)])

/-- JSON rendering of one `system.tables` row. -/
def tableInfoJ (t : TableInfo) : JValue :=
  JValue.obj
    [("name", JValue.str t.name), ("engine", JValue.str t.engine),
     ("total_rows", match t.totalRows with
       | none => JValue.null
       | some n => JValue.num n),
     ("total_bytes", match t.totalBytes with
       | none => JValue.null
       | some n => JValue.num n)]

/-- `Proxy.tables` (native datastore variant): the decode outcome is
ignored on failure (zero-value request), rows failing `Scan` are
skipped. -/
def dsTables (dec : DsNativeDecode) (be : DsNativeBackend) (defaultDb body : String) :
    Response :=
  let req :=
    match dec.tablesReq body with
    | Except.ok r => r
    | Except.error _ => { database := "" }
  let db := if req.database = "" then defaultDb else req.database
  match be.queryTables db with
  | Except.error e => respond 502 (JValue.obj [("error", JValue.str e)])
  | Except.ok scans =>
    let tables := scans.filterMap fun s =>
      match s with
      | Except.ok t => some t
      | Except.error _ => none
    respond 200 (JValue.obj
      [("database", JValue.str db),
       ("tables", JValue.arr (tables.map tableInfoJ))])

/-- `Proxy.health` (native datastore variant): ping, then best-effort
server version reporting. -/
def dsNativeHealth (be : DsNativeBackend) : Response :=
  match be.ping with
  | some e => respond 503 (JValue.obj [("error", JValue.str e)])
  | none =>
    let ver :=
      match be.version with
      | none => ""
      | some v => toString v.1 ++ "." ++ toString v.2.1 ++ "." ++ toString v.2.2
    respond 200 (JValue.obj
      [("status", JValue.str "ok"), ("service", JValue.str "hanzo-datastore"),
       ("native", JValue.bool true), ("version", JValue.str ver)])

/-- `Proxy.handle` (native datastore variant). -/
def dsNativeHandle (dec : DsNativeDecode) (be : DsNativeBackend)
    (defaultDb path body : String) : Response :=
  if path = "/health" then dsNativeHealth be
  else if path = "/query" then dsNativeQuery dec be body
  else if path = "/exec" then dsExec dec be body
  else if path = "/insert" then dsInsert dec be defaultDb body
  else if path = "/tables" then dsTables dec be defaultDb body
  else if 0 < body.length then dsNativeQuery dec be body
  else respond 404 (JValue.obj [("error", JValue.str ("unknown: " ++ path))])

/- ================================================================
   Document adapter (package documentdb)
   ================================================================ -/

/-- Decoded `findReq` body. -/
structure DocFindReq where
  collection : String
  filter : Row
  limit : Int
  database : String

/-- Decoded `insertReq` body (documentdb). -/
structure DocInsertReq where
  collection : String
  documents : List Row
  database : String

/-- Decoded `updateReq` body. -/
structure DocUpdateReq where
  collection : String
  filter : Row
  update : Row
  database : String

/-- Decoded `deleteReq` body. -/
structure DocDeleteReq where
  collection : String
  filter : Row
  database : String

/-- Decoder bundle for the document adapter. -/
structure DocDecode where
  findReq : String → Except String DocFindReq
  insertReq : String → Except String DocInsertReq
  updateReq : String → Except String DocUpdateReq
  deleteReq : String → Except String DocDeleteReq

/-- Backend bundle for the document adapter (the MongoDB-protocol
driver): every operation takes the database and collection names. -/
structure DocBackend where
  find : String → String → Row → Int → Except String (List Row)
  insertMany : String → String → List Row → Except String (List JValue)
  updateMany : String → String → Row → Row → Except String (Int × Int)
  deleteMany : String → String → Row → Except String Int
  ping : Option String

/-- Database selected by a document operation: per-request override or
the adapter default. -/
def docDb (defaultDb reqDb : String) : String :=
  if reqDb ≠ "" then reqDb else defaultDb

/-- `Proxy.find` (documentdb). -/
def docFind (dec : DocDecode) (be : DocBackend) (defaultDb body : String) : Response :=
  match dec.findReq body with
  | Except.error e => respond 400 (JValue.obj [("error", JValue.str e)])
  | Except.ok req =>
    match be.find (docDb defaultDb req.database) req.collection req.filter req.limit with
    | Except.error e => respond 500 (JValue.obj [("error", JValue.str e)])
    | Except.ok docs =>
      respond 200 (JValue.obj
        [("documents", JValue.arr (docs.map JValue.obj)),
         ("count", JValue.num docs.length)])

/-- `Proxy.insert` (documentdb). -/
def docInsert (dec : DocDecode) (be : DocBackend) (defaultDb body : String) : Response :=
  match dec.insertReq body with
  | Except.error e => respond 400 (JValue.obj [("error", JValue.str e)])
  | Except.ok req =>
    match be.insertMany (docDb defaultDb req.database) req.collection req.documents with
    | Except.error e => respond 500 (JValue.obj [("error", JValue.str e)])
    | Except.ok ids =>
      respond 200 (JValue.obj
        [("inserted_ids", JValue.arr ids), ("count", JValue.num ids.length)])

/-- `Proxy.update` (documentdb). -/
def docUpdate (dec : DocDecode) (be : DocBackend) (defaultDb body : String) : Response :=
  match dec.updateReq body with
  | Except.error e => respond 400 (JValue.obj [("error", JValue.str e)])
  | Except.ok req =>
    match be.updateMany (docDb defaultDb req.database) req.collection req.filter
        req.update with
    | Except.error e => respond 500 (JValue.obj [("error", JValue.str e)])
    | Except.ok counts =>
      respond 200 (JValue.obj
        [("matched_count", JValue.num counts.1),
         ("modified_count", JValue.num counts.2)])

/-- `Proxy.del` (documentdb). -/
def docDelete (dec : DocDecode) (be : DocBackend) (defaultDb body : String) : Response :=
  match dec.deleteReq body with
  | Except.error e => respond 400 (JValue.obj [("error", JValue.str e)])
  | Except.ok req =>
    match be.deleteMany (docDb defaultDb req.database) req.collection req.filter with
    | Except.error e => respond 500 (JValue.obj [("error", JValue.str e)])
    | Except.ok n => respond 200 (JValue.obj [("deleted_count", JValue.num n)])

/-- `Proxy.health` (documentdb). -/
def docHealth (be : DocBackend) : Response :=
  match be.ping with
  | some e => respond 503 (JValue.obj [("error", JValue.str e)])
  | none =>
    respond 200 (JValue.obj
      [("status", JValue.str "ok"), ("service", JValue.str "hanzo-documentdb")])

/-- `Proxy.handle` (documentdb): note that unlike the other three
adapters the default branch returns 404 unconditionally — there is
no fallback to a default operation on a non-empty body. -/
def docHandle (dec : DocDecode) (be : DocBackend) (defaultDb path body : String) :
    Response :=
  if path = "/find" then docFind dec be defaultDb body
  else if path = "/insert" then docInsert dec be defaultDb body
  else if path = "/update" then docUpdate dec be defaultDb body
  else if path = "/delete" then docDelete dec be defaultDb body
  else if path = "/health" then docHealth be
  else respond 404 (JValue.obj [("error", JValue.str ("unknown path: " ++ path))])

/- ================================================================
   Connection bootstrap loops
   ================================================================ -/

/-- Outcome of a constructor's bootstrap phase: how many liveness probes
ran, how many 2-time-unit sleeps were taken, and whether a ready
handle was returned. -/
structure BootResult where
  probes : Nat
  sleeps : Nat
  ok : Bool

/-- The retry loop shared verbatim by the sql, kv and documentdb
constructors: `for i := 0; i < 30; i++ { probe; success → break;
i == 29 → error; sleep 2s }`.  `probe i` is attempt `i`'s combined
connect-and-ping success. -/
def pingRetryLoop (probe : Nat → Bool) : Nat → Nat → Nat → BootResult
  | i, sleeps, 0 => { probes := i, sleeps := sleeps, ok := false }
  | i, sleeps, fuel + 1 =>
    if probe i then { probes := i + 1, sleeps := sleeps, ok := true }
    else if i = 29 then { probes := i + 1, sleeps := sleeps, ok := false }
    else pingRetryLoop probe (i + 1) (sleeps + 1) fuel

/-- Bootstrap of `sql.New`. -/
def sqlConnect (probe : Nat → Bool) : BootResult := pingRetryLoop probe 0 0 30

/-- Bootstrap of `kv.New`. -/
def kvConnect (probe : Nat → Bool) : BootResult := pingRetryLoop probe 0 0 30

/-- Bootstrap of `documentdb.New`. -/
def docConnect (probe : Nat → Bool) : BootResult := pingRetryLoop probe 0 0 30

/-- The retry loop of the native datastore constructor: no early error
return, a sleep after every failed attempt (including the 30th), and
an error check after the loop. -/
def nativeRetryLoop (probe : Nat → Bool) : Nat → Nat → Nat → BootResult
  | i, sleeps, 0 => { probes := i, sleeps := sleeps, ok := false }
  | i, sleeps, fuel + 1 =>
    if probe i then { probes := i + 1, sleeps := sleeps, ok := true }
    else nativeRetryLoop probe (i + 1) (sleeps + 1) fuel

/-- Bootstrap of the native datastore `New`. -/
def dsNativeConnect (probe : Nat → Bool) : BootResult := nativeRetryLoop probe 0 0 30

/-- Bootstrap of the HTTP datastore `New`: a single `/ping` probe, no
retry loop and no sleep; an error is returned immediately on
failure. -/
def dsHttpConnect (probe : Nat → Bool) : BootResult :=
  if probe 0 then { probes := 1, sleeps := 0, ok := true }
  else { probes := 1, sleeps := 0, ok := false }

/- ================================================================
   Concrete sample decoders, backends and requests (used to evaluate
   the theorems on closed inputs)
   ================================================================ -/

/-- A kv decoder whose every unmarshal fails (raw-body clients). -/
def kvDec0 : KVDecode :=
  { cmdReq := fun _ => Except.error "bad json"
  , keyReq := fun _ => Except.error "bad json"
  , setReq := fun _ => Except.error "bad json"
  , mgetReq := fun _ => Except.error "bad json" }

/-- A kv backend whose store is empty and otherwise healthy. -/
def kvBe0 : KVBackend :=
  { get := fun _ => KVGetResult.nilReply
  , set := fun _ _ => none
  , mget := fun _ => Except.ok []
  , doCmd := fun _ => Except.ok JValue.null
  , ping := none }

/-- A sql decoder whose unmarshal fails on a non-JSON body without
populating any field (the struct keeps its zero value). -/
def sqlDec0 : SQLDecode :=
  { sqlReq := fun _ => (some "bad json", { sql := "", args := [] }) }

/-- Models `json.Unmarshal` of the body
`\x7b"sql":42,"args":["x"]\x7d` into a `sqlReq` struct: the numeric
`sql` field raises an UnmarshalTypeError, but Go keeps decoding the
remaining fields, so the returned state has an empty `sql` and a
populated `args`. -/
def sqlDecPartial : SQLDecode :=
  { sqlReq := fun _ =>
      (some "json: cannot unmarshal number into Go struct field sqlReq.sql of type string",
       { sql := "", args := [JValue.str "x"] }) }

/-- The body whose decode fails with a type error after populating
`args`. -/
def sqlPartialBody : String := "\x7b\"sql\":42,\"args\":[\"x\"]\x7d"

/-- A sql backend that reports whether it was invoked with a non-empty
argument list. -/
def sqlBeArgsProbe : SQLBackend :=
  { query := fun _ args =>
      if args.isEmpty then SQLQueryResult.ok [] []
      else SQLQueryResult.fail "called with non-empty args"
  , exec := fun _ args =>
      if args.isEmpty then Except.ok (0, "SELECT 0")
      else Except.error "called with non-empty args"
  , ping := none }

/-- A healthy sql backend returning no rows. -/
def sqlBe0 : SQLBackend :=
  { query := fun _ _ => SQLQueryResult.ok [] []
  , exec := fun _ _ => Except.ok (0, "SELECT 0")
  , ping := none }

/-- Sample rows. -/
def rowA : Row := [("id", JValue.num 1)]

/-- Second sample row. -/
def rowB : Row := [("id", JValue.num 2)]

/-- A two-row columnar insert request (native shape). -/
def dsReq2 : DsInsertReq :=
  { table := "events", database := "", columns := [], rows := [rowA, rowB] }

/-- A zero-row columnar insert request (native shape). -/
def dsReq0 : DsInsertReq :=
  { table := "events", database := "", columns := [], rows := [] }

/-- A two-row columnar insert request (HTTP shape). -/
def dsHttpReq2 : DsHttpInsertReq :=
  { table := "events", database := "", rows := [rowA, rowB] }

/-- A native datastore decoder that decodes every body into the two-row
insert request. -/
def dsNDec2 : DsNativeDecode :=
  { queryReq := fun _ => Except.error "bad json"
  , execReq := fun _ => Except.error "bad json"
  , insertReq := fun _ => Except.ok dsReq2
  , tablesReq := fun _ => Except.error "bad json" }

/-- A native datastore decoder that decodes every body into the zero-row
insert request. -/
def dsNDec0 : DsNativeDecode :=
  { queryReq := fun _ => Except.error "bad json"
  , execReq := fun _ => Except.error "bad json"
  , insertReq := fun _ => Except.ok dsReq0
  , tablesReq := fun _ => Except.error "bad json" }

/-- An append function that always succeeds. -/
def apOK : List (Option JValue) → Option String := fun _ => none

/-- An append function that always fails. -/
def apBoom : List (Option JValue) → Option String := fun _ => some "boom"

/-- A batch whose appends and send succeed. -/
def chBatchOK : CHBatch := { append := apOK, send := none }

/-- A batch whose appends fail and whose send would also fail. -/
def chBatchBoom : CHBatch := { append := apBoom, send := some "late send" }

/-- A healthy native datastore backend. -/
def dsNBeOK : DsNativeBackend :=
  { query := fun _ => CHQueryResult.ok [] [] none
  , exec := fun _ _ => none
  , prepareBatch := fun _ => Except.ok chBatchOK
  , queryTables := fun _ => Except.ok []
  , ping := none
  , version := none }

/-- A native datastore backend whose prepared batches reject every row. -/
def dsNBeBoom : DsNativeBackend :=
  { query := fun _ => CHQueryResult.ok [] [] none
  , exec := fun _ _ => none
  , prepareBatch := fun _ => Except.ok chBatchBoom
  , queryTables := fun _ => Except.ok []
  , ping := none
  , version := none }

/-- An HTTP datastore decoder that decodes every body into the two-row
insert request. -/
def dsHttpDec2 : DsHttpDecode :=
  { queryReq := fun _ => (some "bad json", { sql := "", database := "", format := "" })
  , insertReq := fun _ => Except.ok dsHttpReq2
  , marshal := fun _ => "\x7b\x7d" }

/-- A healthy HTTP datastore backend answering 200 to every request. -/
def dsHttpBe0 : DsHttpBackend :=
  { postQuery := fun _ _ => Except.ok (200, "")
  , postInsert := fun _ _ _ => Except.ok (200, "")
  , ping := none }

/-- A document decoder whose every unmarshal fails. -/
def docDec0 : DocDecode :=
  { findReq := fun _ => Except.error "bad json"
  , insertReq := fun _ => Except.error "bad json"
  , updateReq := fun _ => Except.error "bad json"
  , deleteReq := fun _ => Except.error "bad json" }

/-- A healthy document backend over an empty store. -/
def docBe0 : DocBackend :=
  { find := fun _ _ _ _ => Except.ok []
  , insertMany := fun _ _ _ => Except.ok []
  , updateMany := fun _ _ _ _ => Except.ok (0, 0)
  , deleteMany := fun _ _ _ => Except.ok 0
  , ping := none }

/-- A probe that fails on the first attempt and succeeds from the second
attempt on. -/
def probeOnSecond : Nat → Bool := fun i => decide (1 ≤ i)

/-- A probe that never succeeds. -/
def probeNever : Nat → Bool := fun _ => false

/- ================================================================
   Theorems
   ================================================================ -/

/-- C3: a key-value `get` whose key the backend reports as not found
(`kv.Nil`) returns status 200 with body `{"value": null}`; a
non-200 status arises only from a genuine backend error, never from
a missing key. -/
theorem c3_kv_get_missing_key (dec : KVDecode) (be : KVBackend) (body : String) :
    (be.get (kvKeyOf dec body) = KVGetResult.nilReply →
      kvGet dec be body = respond 200 (JValue.obj [("value", JValue.null)]))
    ∧ ((kvGet dec be body).status ≠ 200 →
      ∃ e, be.get (kvKeyOf dec body) = KVGetResult.fail e) := by
  constructor
  · intro h
    unfold kvGet kvGetRun
    rw [h]
  · intro h
    unfold kvGet kvGetRun at h
    cases hg : be.get (kvKeyOf dec body) with
    | found v => rw [hg] at h; simp [respond] at h
    | nilReply => rw [hg] at h; simp [respond] at h
    | fail e => exact ⟨e, rfl⟩

/-- Witness for C3 at a concrete input: an empty store and the key
`"foo"`. -/
theorem c3_kv_get_missing_key_witness :
    kvGet kvDec0 kvBe0 "foo" = respond 200 (JValue.obj [("value", JValue.null)]) :=
  (c3_kv_get_missing_key kvDec0 kvBe0 "foo").1 rfl

/-- C10: a key-value `get` whose body fails to decode as `{key}` uses
the entire raw body as the lookup key; `get` never returns status
400. -/
theorem c10_kv_get_raw_key_fallback (dec : KVDecode) (be : KVBackend) (body e : String) :
    (dec.keyReq body = Except.error e → kvGet dec be body = kvGetRun be body)
    ∧ (kvGet dec be body).status ≠ 400 := by
  constructor
  · intro h
    unfold kvGet kvKeyOf
    rw [h]
  · unfold kvGet kvGetRun
    cases be.get (kvKeyOf dec body) <;> simp [respond]

/-- Witness for C10: a body that is not JSON is used as the key
directly. -/
theorem c10_kv_get_raw_key_fallback_witness :
    kvGet kvDec0 kvBe0 "rawkey" = kvGetRun kvBe0 "rawkey" :=
  (c10_kv_get_raw_key_fallback kvDec0 kvBe0 "rawkey" "bad json").1 rfl

/-- C7 (counterexample): the claim says a decode failure always yields
the raw body as SQL with an *empty* argument list, but
`json.Unmarshal` keeps fields it decoded before an
UnmarshalTypeError and the source only resets `req.SQL` — for the
body `\x7b"sql":42,"args":["x"]\x7d` the adapter invokes the
backend with the raw body and the non-empty argument list `["x"]`
(observable through a backend that distinguishes empty from
non-empty argument lists), not with the empty list the claim
requires. -/
theorem c7_sql_partial_args_counterexample :
    (sqlDecPartial.sqlReq sqlPartialBody).1.isSome = true
    ∧ sqlReqOf sqlDecPartial sqlPartialBody =
        { sql := sqlPartialBody, args := [JValue.str "x"] }
    ∧ (sqlReqOf sqlDecPartial sqlPartialBody).args ≠ []
    ∧ sqlQuery sqlDecPartial sqlBeArgsProbe sqlPartialBody =
        respond 500 (JValue.obj [("error", JValue.str "called with non-empty args")])
    ∧ sqlQueryRun sqlBeArgsProbe { sql := sqlPartialBody, args := [] } =
        respond 200 (JValue.obj [("rows", JValue.arr []), ("count", JValue.num 0)]) :=
  ⟨rfl, rfl, List.cons_ne_nil _ _, rfl, rfl⟩

/-- C7 (amended): a relational `query` or `exec` whose body fails to
decode as `{sql, args}` runs the entire raw body as the SQL string,
keeping whatever argument list the partial JSON decode populated
(empty whenever the decode populated nothing, e.g. for a non-JSON
body); neither operation ever returns status 400. -/
theorem c7_sql_raw_body_fallback_amended (dec : SQLDecode) (be : SQLBackend)
    (body e : String) (r : SqlReq) :
    (dec.sqlReq body = (some e, r) →
      sqlQuery dec be body = sqlQueryRun be { r with sql := body }
      ∧ sqlExec dec be body = sqlExecRun be { r with sql := body })
    ∧ (sqlQuery dec be body).status ≠ 400
    ∧ (sqlExec dec be body).status ≠ 400 := by
  refine ⟨fun h => ?_, ?_, ?_⟩
  · unfold sqlQuery sqlExec sqlReqOf
    rw [h]
    exact ⟨rfl, rfl⟩
  · unfold sqlQuery sqlQueryRun
    cases be.query (sqlReqOf dec body).sql (sqlReqOf dec body).args with
    | fail e => simp [respond]
    | ok descs scans =>
      cases h2 : sqlCollectRows descs scans <;> simp [h2, respond]
  · unfold sqlExec sqlExecRun
    cases be.exec (sqlReqOf dec body).sql (sqlReqOf dec body).args <;> simp [respond]

/-- Witness for the amended C7: raw SQL text sent by a client that does
not build JSON — nothing is partially decoded, so the argument list
is empty. -/
theorem c7_sql_raw_body_fallback_amended_witness :
    sqlQuery sqlDec0 sqlBe0 "SELECT 1" = sqlQueryRun sqlBe0 { sql := "SELECT 1", args := [] }
    ∧ sqlExec sqlDec0 sqlBe0 "SELECT 1" = sqlExecRun sqlBe0 { sql := "SELECT 1", args := [] } :=
  (c7_sql_raw_body_fallback_amended sqlDec0 sqlBe0 "SELECT 1" "bad json"
    { sql := "", args := [] }).1 rfl

/-- C9: a well-formed native columnar insert whose rows list is empty is
rejected with status 400 and error `"no rows"`, for every backend —
in particular no backend operation is attempted and no
`inserted=0` success is reported. -/
theorem c9_native_insert_no_rows (dec : DsNativeDecode) (defaultDb body : String)
    (req : DsInsertReq) :
    dec.insertReq body = Except.ok req → req.rows = [] →
    ∀ be : DsNativeBackend,
      dsInsert dec be defaultDb body =
        respond 400 (JValue.obj [("error", JValue.str "no rows")]) := by
  intro h hr be
  unfold dsInsert
  rw [h]
  simp [hr]

/-- Witness for C9: a decoded zero-row insert against a healthy
backend. -/
theorem c9_native_insert_no_rows_witness :
    dsInsert dsNDec0 dsNBeOK "default" "body" =
      respond 400 (JValue.obj [("error", JValue.str "no rows")]) :=
  c9_native_insert_no_rows dsNDec0 "default" "body" dsReq0 rfl rfl dsNBeOK

/-- C4: in the native columnar bulk insert, if appending a row to the
prepared batch fails (the staging loop reports an error `e`), the
response has status 400 with an error identifying the row-append
failure — and this holds for every value of the batch's `Send`
outcome, so the batch is never sent. -/
theorem c4_native_insert_append_aborts (dec : DsNativeDecode) (defaultDb body : String)
    (req : DsInsertReq) (ap : List (Option JValue) → Option String) (e : String) :
    dec.insertReq body = Except.ok req →
    req.rows.isEmpty = false →
    insertLoop ap (inferCols req.columns req.rows) req.rows = some e →
    ∀ (be : DsNativeBackend) (send : Option String),
      be.prepareBatch (dsInsertSQL defaultDb req) =
        Except.ok { append := ap, send := send } →
      dsInsert dec be defaultDb body =
        respond 400 (JValue.obj [("error", JValue.str ("row append: " ++ e))]) := by
  intro h hne hloop be send hprep
  unfold dsInsert
  rw [h]
  simp [hne, hprep, hloop]

/-- Witness for C4: a two-row batch whose first append fails with
`"boom"`, against a batch whose send would itself fail — the 400
row-append response is produced regardless. -/
theorem c4_native_insert_append_aborts_witness :
    dsInsert dsNDec2 dsNBeBoom "default" "body" =
      respond 400 (JValue.obj [("error", JValue.str "row append: boom")]) :=
  c4_native_insert_append_aborts dsNDec2 "default" "body" dsReq2 apBoom "boom"
    rfl rfl rfl dsNBeBoom (some "late send") rfl

/-- C5: a columnar bulk insert of N rows that succeeds against the
backend returns status 200 with body
`{"status":"ok","inserted":N}`, in both the HTTP and the native
transport variants. -/
theorem c5_columnar_insert_reports_count :
    (∀ (dec : DsHttpDecode) (be : DsHttpBackend) (defaultDb body : String)
        (req : DsHttpInsertReq) (rb : String),
      dec.insertReq body = Except.ok req →
      be.postInsert (dsHttpDb defaultDb req.database) (dsHttpInsertSQL req.table)
          (dsHttpPayload dec.marshal req.rows) = Except.ok (200, rb) →
      dsHttpInsert dec be defaultDb body =
        respond 200 (JValue.obj
          [("status", JValue.str "ok"), ("inserted", JValue.num req.rows.length)]))
    ∧ (∀ (dec : DsNativeDecode) (be : DsNativeBackend) (defaultDb body : String)
        (req : DsInsertReq) (batch : CHBatch),
      dec.insertReq body = Except.ok req →
      req.rows.isEmpty = false →
      be.prepareBatch (dsInsertSQL defaultDb req) = Except.ok batch →
      insertLoop batch.append (inferCols req.columns req.rows) req.rows = none →
      batch.send = none →
      dsInsert dec be defaultDb body =
        respond 200 (JValue.obj
          [("status", JValue.str "ok"), ("inserted", JValue.num req.rows.length)])) := by
  constructor
  · intro dec be defaultDb body req rb h hpost
    unfold dsHttpInsert
    rw [h]
    dsimp only
    rw [hpost]
    simp
  · intro dec be defaultDb body req batch h hne hprep hloop hsend
    unfold dsInsert
    rw [h]
    simp [hne, hprep, hloop, hsend]

/-- Witness for C5: the spec's example — a two-row insert into `events`
returns `{"status":"ok","inserted":2}` in both variants. -/
theorem c5_columnar_insert_reports_count_witness :
    dsHttpInsert dsHttpDec2 dsHttpBe0 "default" "body" =
      respond 200 (JValue.obj
        [("status", JValue.str "ok"), ("inserted", JValue.num 2)])
    ∧ dsInsert dsNDec2 dsNBeOK "default" "body" =
      respond 200 (JValue.obj
        [("status", JValue.str "ok"), ("inserted", JValue.num 2)]) :=
  ⟨c5_columnar_insert_reports_count.1 dsHttpDec2 dsHttpBe0 "default" "body"
      dsHttpReq2 "" rfl rfl,
   c5_columnar_insert_reports_count.2 dsNDec2 dsNBeOK "default" "body"
      dsReq2 chBatchOK rfl rfl rfl rfl rfl⟩

/-- C6: when no explicit column list is supplied, the native insert's
column list is exactly the key list of the first row; every row is
converted by looking up each inferred column in that row, so a key
missing from a later row contributes the backend default (`none`),
and keys outside the inferred list never influence the appended
values (extra keys are dropped); the inferred list is fixed for the
whole batch. -/
theorem c6_native_insert_column_inference (r : Row) (rest : List Row) :
    inferCols [] (r :: rest) = r.map Prod.fst
    ∧ (∀ row : Row, rowVals (inferCols [] (r :: rest)) row
        = (r.map Prod.fst).map (lookupRow row))
    ∧ (∀ (row : Row) (c : String), c ∉ row.map Prod.fst → lookupRow row c = none)
    ∧ (∀ (row : Row) (c : String), c ∈ r.map Prod.fst →
        lookupRow (row.filter fun p => decide (p.1 ∈ r.map Prod.fst)) c
          = lookupRow row c) := by
  have hcols : inferCols [] (r :: rest) = r.map Prod.fst := by
    simp [inferCols]
  refine ⟨hcols, fun row => by rw [hcols]; rfl, fun row c hnc => ?_, fun row c hc => ?_⟩
  · unfold lookupRow
    have h : row.find? (fun p => p.1 == c) = none := by
      apply List.find?_eq_none.mpr
      intro p hp
      simp only [beq_iff_eq]
      intro hpc
      exact hnc (hpc ▸ List.mem_map_of_mem Prod.fst hp)
    rw [h]
    rfl
  · induction row with
    | nil => rfl
    | cons p t ih =>
      unfold lookupRow at ih ⊢
      rw [List.filter_cons]
      by_cases hpc : p.1 = c
      · have hmem : p.1 ∈ r.map Prod.fst := hpc ▸ hc
        rw [if_pos (by simpa using hmem)]
        rw [List.find?_cons_of_pos _ (by simp [hpc]),
          List.find?_cons_of_pos _ (by simp [hpc])]
      · by_cases hin : p.1 ∈ r.map Prod.fst
        · rw [if_pos (by simpa using hin)]
          rw [List.find?_cons_of_neg _ (by simp [hpc]),
            List.find?_cons_of_neg _ (by simp [hpc])]
          exact ih
        · rw [if_neg (by simpa using hin)]
          rw [List.find?_cons_of_neg _ (by simp [hpc])]
          exact ih

/-- Witness for C6: first row `{id, name}`, second row `{name, zz}` —
the inferred columns are `[id, name]`, the second row's `id` is the
backend default and its extra key `zz` is dropped. -/
theorem c6_native_insert_column_inference_witness :
    inferCols [] [[("id", JValue.num 1), ("name", JValue.str "x")],
        [("name", JValue.str "y"), ("zz", JValue.num 9)]] = ["id", "name"]
    ∧ lookupRow [("name", JValue.str "y"), ("zz", JValue.num 9)] "id" = none := by
  have h := c6_native_insert_column_inference
    [("id", JValue.num 1), ("name", JValue.str "x")]
    [[("name", JValue.str "y"), ("zz", JValue.num 9)]]
  exact ⟨h.1, h.2.2.1 [("name", JValue.str "y"), ("zz", JValue.num 9)] "id" (by decide)⟩

/-- C1 (counterexample): the claim asserts the unknown-path fallback for
every adapter including the document one, but the document
adapter's dispatcher returns a 404 error response even when the
body is non-empty — at path `"/oops"` with body `"x"`. -/
theorem c1_routing_fallback_counterexample :
    docHandle docDec0 docBe0 "hanzo" "/oops" "x" =
      respond 404 (JValue.obj [("error", JValue.str "unknown path: /oops")])
    ∧ (docHandle docDec0 docBe0 "hanzo" "/oops" "x").status = 404
    ∧ 0 < ("x" : String).length :=
  ⟨rfl, rfl, by decide⟩

/-- C1 (amended): for the relational, key-value and columnar adapters, a
request whose path matches no registered route is dispatched to the
backend's default operation (query for relational/columnar, generic
command for key-value) when the body is non-empty, and answered
with a 404 response whose error mentions the unknown path when the
body is empty; the document adapter instead returns the 404
unknown-path response for every unregistered path, regardless of
the body. -/
theorem c1_routing_fallback_amended :
    (∀ (dec : SQLDecode) (be : SQLBackend) (path body : String),
      path ≠ "/query" → path ≠ "/exec" → path ≠ "/health" →
      (0 < body.length → sqlHandle dec be path body = sqlQuery dec be body)
      ∧ (body.length = 0 → sqlHandle dec be path body =
          respond 404 (JValue.obj [("error", JValue.str ("unknown: " ++ path))])))
    ∧ (∀ (dec : KVDecode) (be : KVBackend) (path body : String),
      path ≠ "/health" → path ≠ "/get" → path ≠ "/set" → path ≠ "/mget" →
      path ≠ "/cmd" →
      (0 < body.length → kvHandle dec be path body = kvCmd dec be body)
      ∧ (body.length = 0 → kvHandle dec be path body =
          respond 404 (JValue.obj [("error", JValue.str ("unknown: " ++ path))])))
    ∧ (∀ (dec : DsHttpDecode) (be : DsHttpBackend) (db path body : String),
      path ≠ "/health" → path ≠ "/query" → path ≠ "/insert" →
      (0 < body.length → dsHttpHandle dec be db path body = dsHttpQuery dec be db body)
      ∧ (body.length = 0 → dsHttpHandle dec be db path body =
          respond 404 (JValue.obj [("error", JValue.str ("unknown: " ++ path))])))
    ∧ (∀ (dec : DsNativeDecode) (be : DsNativeBackend) (db path body : String),
      path ≠ "/health" → path ≠ "/query" → path ≠ "/exec" → path ≠ "/insert" →
      path ≠ "/tables" →
      (0 < body.length → dsNativeHandle dec be db path body = dsNativeQuery dec be body)
      ∧ (body.length = 0 → dsNativeHandle dec be db path body =
          respond 404 (JValue.obj [("error", JValue.str ("unknown: " ++ path))])))
    ∧ (∀ (dec : DocDecode) (be : DocBackend) (db path body : String),
      path ≠ "/find" → path ≠ "/insert" → path ≠ "/update" → path ≠ "/delete" →
      path ≠ "/health" →
      docHandle dec be db path body =
        respond 404 (JValue.obj [("error", JValue.str ("unknown path: " ++ path))])) := by
  refine ⟨?_, ?_, ?_, ?_, ?_⟩
  · intro dec be path body h1 h2 h3
    constructor
    · intro hb
      simp [sqlHandle, h1, h2, h3, hb]
    · intro hb
      have hb2 : ¬ 0 < body.length := by omega
      simp [sqlHandle, h1, h2, h3, hb2]
  · intro dec be path body h1 h2 h3 h4 h5
    constructor
    · intro hb
      simp [kvHandle, h1, h2, h3, h4, h5, hb]
    · intro hb
      have hb2 : ¬ 0 < body.length := by omega
      simp [kvHandle, h1, h2, h3, h4, h5, hb2]
  · intro dec be db path body h1 h2 h3
    constructor
    · intro hb
      simp [dsHttpHandle, h1, h2, h3, hb]
    · intro hb
      have hb2 : ¬ 0 < body.length := by omega
      simp [dsHttpHandle, h1, h2, h3, hb2]
  · intro dec be db path body h1 h2 h3 h4 h5
    constructor
    · intro hb
      simp [dsNativeHandle, h1, h2, h3, h4, h5, hb]
    · intro hb
      have hb2 : ¬ 0 < body.length := by omega
      simp [dsNativeHandle, h1, h2, h3, h4, h5, hb2]
  · intro dec be db path body h1 h2 h3 h4 h5
    simp [docHandle, h1, h2, h3, h4, h5]

/-- Witness for the amended C1 at the concrete unregistered path
`"/zzz"`: the fallback with body `"x"` for the four fallback-capable
dispatchers, the empty-body 404 for the key-value one, and the
unconditional 404 of the document one. -/
theorem c1_routing_fallback_amended_witness :
    sqlHandle sqlDec0 sqlBe0 "/zzz" "x" = sqlQuery sqlDec0 sqlBe0 "x"
    ∧ kvHandle kvDec0 kvBe0 "/zzz" "x" = kvCmd kvDec0 kvBe0 "x"
    ∧ kvHandle kvDec0 kvBe0 "/zzz" "" =
        respond 404 (JValue.obj [("error", JValue.str "unknown: /zzz")])
    ∧ dsHttpHandle dsHttpDec2 dsHttpBe0 "default" "/zzz" "x" =
        dsHttpQuery dsHttpDec2 dsHttpBe0 "default" "x"
    ∧ dsNativeHandle dsNDec2 dsNBeOK "default" "/zzz" "x" =
        dsNativeQuery dsNDec2 dsNBeOK "x"
    ∧ docHandle docDec0 docBe0 "hanzo" "/zzz" "x" =
        respond 404 (JValue.obj [("error", JValue.str "unknown path: /zzz")]) :=
  ⟨(c1_routing_fallback_amended.1 sqlDec0 sqlBe0 "/zzz" "x"
      (by decide) (by decide) (by decide)).1 (by decide),
   (c1_routing_fallback_amended.2.1 kvDec0 kvBe0 "/zzz" "x"
      (by decide) (by decide) (by decide) (by decide) (by decide)).1 (by decide),
   (c1_routing_fallback_amended.2.1 kvDec0 kvBe0 "/zzz" ""
      (by decide) (by decide) (by decide) (by decide) (by decide)).2 (by decide),
   (c1_routing_fallback_amended.2.2.1 dsHttpDec2 dsHttpBe0 "default" "/zzz" "x"
      (by decide) (by decide) (by decide)).1 (by decide),
   (c1_routing_fallback_amended.2.2.2.1 dsNDec2 dsNBeOK "default" "/zzz" "x"
      (by decide) (by decide) (by decide) (by decide) (by decide)).1 (by decide),
   c1_routing_fallback_amended.2.2.2.2 docDec0 docBe0 "hanzo" "/zzz" "x"
      (by decide) (by decide) (by decide) (by decide) (by decide)⟩

/-- Unrolling of the shared ping-retry loop when the first successful
attempt is `k` (0-based). -/
lemma pingRetryLoop_success (probe : Nat → Bool) (k : Nat) (hk : probe k = true)
    (hmin : ∀ j, j < k → probe j = false) :
    ∀ (fuel i sleeps : Nat), i ≤ k → k < i + fuel → i + fuel = 30 →
      pingRetryLoop probe i sleeps fuel =
        { probes := k + 1, sleeps := sleeps + (k - i), ok := true } := by
  intro fuel
  induction fuel with
  | zero => intro i sleeps h1 h2 _; omega
  | succ f ih =>
    intro i sleeps h1 h2 h3
    unfold pingRetryLoop
    by_cases hik : i = k
    · subst hik
      simp [hk]
    · have hik2 : i < k := lt_of_le_of_ne h1 hik
      have hpi : probe i = false := hmin i hik2
      rw [hpi]
      simp only [Bool.false_eq_true, if_false]
      rw [if_neg (by omega)]
      rw [ih (i + 1) (sleeps + 1) (by omega) (by omega) (by omega)]
      congr 1
      omega

/-- Unrolling of the shared ping-retry loop when every attempt fails:
the loop errors out at attempt index 29, after 30 probes and 29
inter-attempt sleeps. -/
lemma pingRetryLoop_fail (probe : Nat → Bool) (hall : ∀ j, j < 30 → probe j = false) :
    ∀ (fuel i sleeps : Nat), 0 < fuel → i + fuel = 30 →
      pingRetryLoop probe i sleeps fuel =
        { probes := 30, sleeps := sleeps + (fuel - 1), ok := false } := by
  intro fuel
  induction fuel with
  | zero => intro i sleeps h1 _; omega
  | succ f ih =>
    intro i sleeps _ h3
    unfold pingRetryLoop
    rw [hall i (by omega)]
    simp only [Bool.false_eq_true, if_false]
    by_cases hf : f = 0
    · subst hf
      rw [if_pos (by omega)]
      simp
      omega
    · rw [if_neg (by omega)]
      rw [ih (i + 1) (sleeps + 1) (by omega) (by omega)]
      congr 1
      omega

/-- Unrolling of the native datastore retry loop when the first
successful attempt is `k` (0-based). -/
lemma nativeRetryLoop_success (probe : Nat → Bool) (k : Nat) (hk : probe k = true)
    (hmin : ∀ j, j < k → probe j = false) :
    ∀ (fuel i sleeps : Nat), i ≤ k → k < i + fuel →
      nativeRetryLoop probe i sleeps fuel =
        { probes := k + 1, sleeps := sleeps + (k - i), ok := true } := by
  intro fuel
  induction fuel with
  | zero => intro i sleeps h1 h2; omega
  | succ f ih =>
    intro i sleeps h1 h2
    unfold nativeRetryLoop
    by_cases hik : i = k
    · subst hik
      simp [hk]
    · have hik2 : i < k := lt_of_le_of_ne h1 hik
      rw [hmin i hik2]
      simp only [Bool.false_eq_true, if_false]
      rw [ih (i + 1) (sleeps + 1) (by omega) (by omega)]
      congr 1
      omega

/-- Unrolling of the native datastore retry loop when every attempt
fails: it runs all 30 attempts and sleeps after each one, including
the last. -/
lemma nativeRetryLoop_fail (probe : Nat → Bool) (hall : ∀ j, j < 30 → probe j = false) :
    ∀ (fuel i sleeps : Nat), i + fuel = 30 →
      nativeRetryLoop probe i sleeps fuel =
        { probes := 30, sleeps := sleeps + fuel, ok := false } := by
  intro fuel
  induction fuel with
  | zero =>
    intro i sleeps h
    unfold nativeRetryLoop
    simp
    omega
  | succ f ih =>
    intro i sleeps h
    unfold nativeRetryLoop
    rw [hall i (by omega)]
    simp only [Bool.false_eq_true, if_false]
    rw [ih (i + 1) (sleeps + 1) (by omega)]
    congr 1
    omega

/-- C2 (counterexample): the claim asserts the 30-attempt bounded retry
for every backend adapter's constructor, but the HTTP datastore
variant probes exactly once: against a backend that is unreachable
on the first probe and reachable from the second, its constructor
fails after a single probe instead of returning a ready handle on
attempt 2. -/
theorem c2_bootstrap_retry_counterexample :
    probeOnSecond 0 = false ∧ probeOnSecond 1 = true
    ∧ dsHttpConnect probeOnSecond = { probes := 1, sleeps := 0, ok := false } :=
  ⟨rfl, rfl, rfl⟩

/-- C2 (amended): the relational, key-value, document and native
columnar constructors probe liveness up to exactly 30 attempts with
a 2-time-unit sleep between attempts — success on 0-based attempt
`k` yields a ready handle after exactly `k+1` probes and `k`
sleeps, and 30 failures yield an error after exactly 30 probes (29
inter-attempt sleeps; the native variant also sleeps after the last
failure, 30 sleeps).  The HTTP columnar variant, however, probes
exactly once with no sleeps, succeeding iff that single probe
succeeds. -/
theorem c2_bootstrap_retry_amended :
    (∀ (probe : Nat → Bool) (k : Nat), k < 30 → probe k = true →
      (∀ j, j < k → probe j = false) →
      sqlConnect probe = { probes := k + 1, sleeps := k, ok := true }
      ∧ kvConnect probe = { probes := k + 1, sleeps := k, ok := true }
      ∧ docConnect probe = { probes := k + 1, sleeps := k, ok := true }
      ∧ dsNativeConnect probe = { probes := k + 1, sleeps := k, ok := true })
    ∧ (∀ probe : Nat → Bool, (∀ j, j < 30 → probe j = false) →
      sqlConnect probe = { probes := 30, sleeps := 29, ok := false }
      ∧ kvConnect probe = { probes := 30, sleeps := 29, ok := false }
      ∧ docConnect probe = { probes := 30, sleeps := 29, ok := false }
      ∧ dsNativeConnect probe = { probes := 30, sleeps := 30, ok := false })
    ∧ (∀ probe : Nat → Bool,
      (dsHttpConnect probe).probes = 1 ∧ (dsHttpConnect probe).sleeps = 0
      ∧ ((dsHttpConnect probe).ok = true ↔ probe 0 = true)) := by
  refine ⟨?_, ?_, ?_⟩
  · intro probe k hk30 hk hmin
    have hping := pingRetryLoop_success probe k hk hmin 30 0 0
      (Nat.zero_le k) (by omega) (by omega)
    have hnat := nativeRetryLoop_success probe k hk hmin 30 0 0
      (Nat.zero_le k) (by omega)
    simp only [Nat.zero_add, Nat.sub_zero] at hping hnat
    exact ⟨hping, hping, hping, hnat⟩
  · intro probe hall
    have hping := pingRetryLoop_fail probe hall 30 0 0 (by omega) (by omega)
    have hnat := nativeRetryLoop_fail probe hall 30 0 0 (by omega)
    simp only [Nat.zero_add] at hping hnat
    exact ⟨hping, hping, hping, hnat⟩
  · intro probe
    cases hp : probe 0 <;> simp [dsHttpConnect, hp]

/-- Witness for the amended C2: a backend reachable from the second
probe on (ready after 2 probes and 1 sleep for the four retrying
constructors) and a backend that is never reachable (error after 30
probes; 1 probe for the HTTP variant). -/
theorem c2_bootstrap_retry_amended_witness :
    sqlConnect probeOnSecond = { probes := 2, sleeps := 1, ok := true }
    ∧ dsNativeConnect probeOnSecond = { probes := 2, sleeps := 1, ok := true }
    ∧ kvConnect probeNever = { probes := 30, sleeps := 29, ok := false }
    ∧ dsNativeConnect probeNever = { probes := 30, sleeps := 30, ok := false }
    ∧ (dsHttpConnect probeNever).probes = 1 := by
  have h1 := c2_bootstrap_retry_amended.1 probeOnSecond 1 (by omega) rfl
    (fun j hj => by
      have hj0 : j = 0 := by omega
      subst hj0
      rfl)
  have h2 := c2_bootstrap_retry_amended.2.1 probeNever (fun j _ => rfl)
  have h3 := c2_bootstrap_retry_amended.2.2 probeNever
  exact ⟨h1.1, h1.2.2.2, h2.2.1, h2.2.2.2, h3.1⟩

/-- A response produced by one of the two response encoders: its headers
field is one of the two fixed content-type maps (and its status and
body fields are set by construction). -/
def IsEnvelope (r : Response) : Prop := r.headers = ctJSON ∨ r.headers = ctNDJSON

lemma kvCmd_env (dec : KVDecode) (be : KVBackend) (body : String) :
    IsEnvelope (kvCmd dec be body) := by
  unfold kvCmd kvCmdRun
  repeat' split
  all_goals exact Or.inl rfl

lemma kvGet_env (dec : KVDecode) (be : KVBackend) (body : String) :
    IsEnvelope (kvGet dec be body) := by
  unfold kvGet kvGetRun
  repeat' split
  all_goals exact Or.inl rfl

lemma kvSet_env (dec : KVDecode) (be : KVBackend) (body : String) :
    IsEnvelope (kvSet dec be body) := by
  unfold kvSet
  repeat' split
  all_goals exact Or.inl rfl

lemma kvMget_env (dec : KVDecode) (be : KVBackend) (body : String) :
    IsEnvelope (kvMget dec be body) := by
  unfold kvMget
  repeat' split
  all_goals exact Or.inl rfl

lemma kvHealth_env (be : KVBackend) : IsEnvelope (kvHealth be) := by
  unfold kvHealth
  repeat' split
  all_goals exact Or.inl rfl

lemma sqlQuery_env (dec : SQLDecode) (be : SQLBackend) (body : String) :
    IsEnvelope (sqlQuery dec be body) := by
  unfold sqlQuery sqlQueryRun
  repeat' split
  all_goals exact Or.inl rfl

lemma sqlExec_env (dec : SQLDecode) (be : SQLBackend) (body : String) :
    IsEnvelope (sqlExec dec be body) := by
  unfold sqlExec sqlExecRun
  repeat' split
  all_goals exact Or.inl rfl

lemma sqlHealth_env (be : SQLBackend) : IsEnvelope (sqlHealth be) := by
  unfold sqlHealth
  repeat' split
  all_goals exact Or.inl rfl

lemma dsHttpQueryRun_env (be : DsHttpBackend) (defaultDb : String)
    (req : DsHttpQueryReq) : IsEnvelope (dsHttpQueryRun be defaultDb req) := by
  unfold dsHttpQueryRun
  dsimp only
  repeat' split
  all_goals first
    | exact Or.inl rfl
    | exact Or.inr rfl

lemma dsHttpQuery_env (dec : DsHttpDecode) (be : DsHttpBackend) (defaultDb body : String) :
    IsEnvelope (dsHttpQuery dec be defaultDb body) := by
  unfold dsHttpQuery
  split
  · exact dsHttpQueryRun_env ..
  · exact dsHttpQueryRun_env ..

lemma dsHttpInsert_env (dec : DsHttpDecode) (be : DsHttpBackend) (defaultDb body : String) :
    IsEnvelope (dsHttpInsert dec be defaultDb body) := by
  unfold dsHttpInsert
  repeat' split
  all_goals exact Or.inl rfl

lemma dsHttpHealth_env (be : DsHttpBackend) : IsEnvelope (dsHttpHealth be) := by
  unfold dsHttpHealth
  repeat' split
  all_goals exact Or.inl rfl

lemma dsNativeQuery_env (dec : DsNativeDecode) (be : DsNativeBackend) (body : String) :
    IsEnvelope (dsNativeQuery dec be body) := by
  unfold dsNativeQuery
  dsimp only
  repeat' split
  all_goals exact Or.inl rfl

lemma dsExec_env (dec : DsNativeDecode) (be : DsNativeBackend) (body : String) :
    IsEnvelope (dsExec dec be body) := by
  unfold dsExec
  repeat' split
  all_goals exact Or.inl rfl

lemma dsInsert_env (dec : DsNativeDecode) (be : DsNativeBackend) (defaultDb body : String) :
    IsEnvelope (dsInsert dec be defaultDb body) := by
  unfold dsInsert
  repeat' split
  all_goals exact Or.inl rfl

lemma dsTables_env (dec : DsNativeDecode) (be : DsNativeBackend) (defaultDb body : String) :
    IsEnvelope (dsTables dec be defaultDb body) := by
  unfold dsTables
  dsimp only
  repeat' split
  all_goals exact Or.inl rfl

lemma dsNativeHealth_env (be : DsNativeBackend) : IsEnvelope (dsNativeHealth be) := by
  unfold dsNativeHealth
  dsimp only
  repeat' split
  all_goals exact Or.inl rfl

lemma docFind_env (dec : DocDecode) (be : DocBackend) (defaultDb body : String) :
    IsEnvelope (docFind dec be defaultDb body) := by
  unfold docFind
  repeat' split
  all_goals exact Or.inl rfl

lemma docInsert_env (dec : DocDecode) (be : DocBackend) (defaultDb body : String) :
    IsEnvelope (docInsert dec be defaultDb body) := by
  unfold docInsert
  repeat' split
  all_goals exact Or.inl rfl

lemma docUpdate_env (dec : DocDecode) (be : DocBackend) (defaultDb body : String) :
    IsEnvelope (docUpdate dec be defaultDb body) := by
  unfold docUpdate
  repeat' split
  all_goals exact Or.inl rfl

lemma docDelete_env (dec : DocDecode) (be : DocBackend) (defaultDb body : String) :
    IsEnvelope (docDelete dec be defaultDb body) := by
  unfold docDelete
  repeat' split
  all_goals exact Or.inl rfl

lemma docHealth_env (be : DocBackend) : IsEnvelope (docHealth be) := by
  unfold docHealth
  repeat' split
  all_goals exact Or.inl rfl

/-- C8: every envelope delivered to any of the five dispatchers —
whatever the path, body, decode outcomes or backend outcomes —
produces exactly one response envelope built by the response
encoder, carrying the status, body and headers fields (each
`handle` is a total function into `Response`, and every value it
returns has one of the encoder's two fixed header maps). -/
theorem c8_every_dispatch_answers (sdec : SQLDecode) (sbe : SQLBackend)
    (kdec : KVDecode) (kbe : KVBackend) (hdec : DsHttpDecode) (hbe : DsHttpBackend)
    (ndec : DsNativeDecode) (nbe : DsNativeBackend) (ddec : DocDecode)
    (dbe : DocBackend) (db path body : String) :
    IsEnvelope (sqlHandle sdec sbe path body)
    ∧ IsEnvelope (kvHandle kdec kbe path body)
    ∧ IsEnvelope (dsHttpHandle hdec hbe db path body)
    ∧ IsEnvelope (dsNativeHandle ndec nbe db path body)
    ∧ IsEnvelope (docHandle ddec dbe db path body) := by
  refine ⟨?_, ?_, ?_, ?_, ?_⟩
  · unfold sqlHandle
    split_ifs
    · exact sqlQuery_env ..
    · exact sqlExec_env ..
    · exact sqlHealth_env ..
    · exact sqlQuery_env ..
    · exact Or.inl rfl
  · unfold kvHandle
    split_ifs
    · exact kvHealth_env ..
    · exact kvGet_env ..
    · exact kvSet_env ..
    · exact kvMget_env ..
    · exact kvCmd_env ..
    · exact kvCmd_env ..
    · exact Or.inl rfl
  · unfold dsHttpHandle
    split_ifs
    · exact dsHttpHealth_env ..
    · exact dsHttpQuery_env ..
    · exact dsHttpInsert_env ..
    · exact dsHttpQuery_env ..
    · exact Or.inl rfl
  · unfold dsNativeHandle
    split_ifs
    · exact dsNativeHealth_env ..
    · exact dsNativeQuery_env ..
    · exact dsExec_env ..
    · exact dsInsert_env ..
    · exact dsTables_env ..
    · exact dsNativeQuery_env ..
    · exact Or.inl rfl
  · unfold docHandle
    split_ifs
    · exact docFind_env ..
    · exact docInsert_env ..
    · exact docUpdate_env ..
    · exact docDelete_env ..
    · exact docHealth_env ..
    · exact Or.inl rfl

end Zap
